import Mathlib

/-!
Shallow embedding of the risk/timeline/stakeholder/regulation engine of
`oslo_ai_planning_system.py` (class `OsloAIPlanningSystem`), together with
theorems checking the specification claims against it.

Python numbers are modelled by `ℚ` (the scores are small decimal literals and
the claims compare them against decimal thresholds); Python `round(x, 2)` is
modelled by rounding to the nearest multiple of 1/100, and `int(x)` by
truncation toward zero.  Python `needle in haystack.lower()` is modelled by
substring containment after `String.toLower` (ASCII lowering; the needles in
the source are already lower-case).
-/

namespace OsloPlanning

/-- Substring test on lists of characters: `hasSub n h` holds when `n` occurs
contiguously in `h`.  Models the Python `in` operator on strings. -/
def hasSub (ndl : List Char) : List Char → Bool
  | [] => ndl.isEmpty
  | c :: cs => ndl.isPrefixOf (c :: cs) || hasSub ndl cs

/-- Model of Python `ndl in hay.lower()` (lowering char by char). -/
def strIn (ndl hay : String) : Bool :=
  hasSub ndl.data (hay.data.map Char.toLower)

/-- Python `int(q)` on a rational: truncation toward zero. -/
def pyInt (q : ℚ) : ℤ :=
  if q < 0 then -⌊-q⌋ else ⌊q⌋

/-- Python `round(q, 2)` idealized over `ℚ`: nearest multiple of 1/100
(ties rounded up, where CPython ties depend on the binary float). -/
def round2 (q : ℚ) : ℚ :=
  (round (q * 100) : ℤ) / 100

/-- The `project_data` dictionary.  Field defaults mirror the defaults used by
the `.get` calls in the source (`''` for text, `0` for numbers, `False` for
flags). -/
structure ProjectData where
  location : String := ""
  nearby_features : String := ""
  nearby_roads : String := ""
  zone_type : String := ""
  project_type : String := ""
  building_height : ℚ := 0
  residential_units : ℚ := 0
  parking_spaces : ℚ := 0
  construction_duration : ℚ := 0
  requires_zoning_change : Bool := false
  heritage_area : Bool := false
  environmental_impact : Bool := false
  complex_foundation : Bool := false
  innovative_design : Bool := false
  tight_site : Bool := false
  deriving DecidableEq

/-- Embedding of `_calculate_environmental_risk`. -/
def _calculate_environmental_risk (pd : ProjectData) : ℚ :=
  let base_risk : ℚ := 0.3
  let base_risk := if strIn "naturområde" pd.location then base_risk + 0.4 else base_risk
  let base_risk := if pd.building_height > 8 then base_risk + 0.2 else base_risk
  let base_risk := if strIn "vannområde" pd.nearby_features then base_risk + 0.3 else base_risk
  min base_risk 1.0

/-- Embedding of `_calculate_traffic_risk`. -/
def _calculate_traffic_risk (pd : ProjectData) : ℚ :=
  let base_risk : ℚ := 0.2
  let units := pd.residential_units
  let base_risk := if units > 100 then base_risk + 0.3 else base_risk
  let base_risk := if strIn "hovedvei" pd.nearby_roads then base_risk + 0.2 else base_risk
  let base_risk := if pd.parking_spaces < units * 0.8 then base_risk + 0.25 else base_risk
  min base_risk 1.0

/-- Embedding of `_calculate_neighbor_risk`. -/
def _calculate_neighbor_risk (pd : ProjectData) : ℚ :=
  let base_risk : ℚ := 0.25
  let height := pd.building_height
  let base_risk := if height > 6 then base_risk + 0.2 else base_risk
  let base_risk := if strIn "boligområde" pd.zone_type then base_risk + 0.15 else base_risk
  let base_risk := if pd.construction_duration > 24 then base_risk + 0.1 else base_risk
  min base_risk 1.0

/-- Embedding of `_calculate_regulatory_risk`. -/
def _calculate_regulatory_risk (pd : ProjectData) : ℚ :=
  let base_risk : ℚ := 0.1
  let base_risk := if pd.requires_zoning_change then base_risk + 0.4 else base_risk
  let base_risk := if pd.heritage_area then base_risk + 0.3 else base_risk
  let base_risk := if pd.environmental_impact then base_risk + 0.2 else base_risk
  min base_risk 1.0

/-- Embedding of `_calculate_technical_risk`. -/
def _calculate_technical_risk (pd : ProjectData) : ℚ :=
  let base_risk : ℚ := 0.15
  let base_risk := if pd.complex_foundation then base_risk + 0.25 else base_risk
  let base_risk := if pd.innovative_design then base_risk + 0.2 else base_risk
  let base_risk := if pd.tight_site then base_risk + 0.15 else base_risk
  min base_risk 1.0

/-- The local variable `total_risk` of `analyze_project_risk`: the weighted
sum of the five sub-scores with the weights of the `risk_factors` dict. -/
def total_risk (pd : ProjectData) : ℚ :=
  _calculate_environmental_risk pd * 0.3 +
  _calculate_traffic_risk pd * 0.25 +
  _calculate_neighbor_risk pd * 0.2 +
  _calculate_regulatory_risk pd * 0.15 +
  _calculate_technical_risk pd * 0.1

/-- Embedding of `_get_risk_level`. -/
def _get_risk_level (risk_score : ℚ) : String :=
  if risk_score < 0.3 then "Low"
  else if risk_score < 0.6 then "Medium"
  else if risk_score < 0.8 then "High"
  else "Critical"

/-- The recommendation list appended when `risk_score > 0.7`. -/
def recs_high : List String :=
  ["🚨 Consider comprehensive stakeholder engagement strategy",
   "📋 Conduct detailed environmental impact assessment",
   "🏛️ Engage with regulatory authorities early"]

/-- The recommendation list appended when `0.5 < risk_score ≤ 0.7`. -/
def recs_medium : List String :=
  ["⚠️ Implement proactive neighbor consultation",
   "📊 Conduct traffic impact analysis",
   "🌿 Consider environmental mitigation measures"]

/-- The recommendation list appended otherwise. -/
def recs_low : List String :=
  ["✅ Project appears low risk",
   "📈 Focus on efficient permit processing",
   "🏗️ Standard regulatory compliance approach"]

/-- Embedding of `_generate_risk_recommendations`. -/
def _generate_risk_recommendations (risk_score : ℚ) : List String :=
  if risk_score > 0.7 then recs_high
  else if risk_score > 0.5 then recs_medium
  else recs_low

/-- The dictionary returned by `analyze_project_risk`. -/
structure RiskAnalysis where
  total_risk_score : ℚ
  environmental_risk : ℚ
  traffic_risk : ℚ
  neighbor_risk : ℚ
  regulatory_risk : ℚ
  technical_risk : ℚ
  risk_level : String
  recommendations : List String
  deriving DecidableEq

/-- Embedding of `analyze_project_risk`. -/
def analyze_project_risk (pd : ProjectData) : RiskAnalysis :=
  { total_risk_score := round2 (total_risk pd)
    environmental_risk := _calculate_environmental_risk pd
    traffic_risk := _calculate_traffic_risk pd
    neighbor_risk := _calculate_neighbor_risk pd
    regulatory_risk := _calculate_regulatory_risk pd
    technical_risk := _calculate_technical_risk pd
    risk_level := _get_risk_level (total_risk pd)
    recommendations := _generate_risk_recommendations (total_risk pd) }

/-- One stakeholder record of `identify_stakeholders` (the `type` key of the
Python dict is `stype` here, `type` being reserved). -/
structure Stakeholder where
  name : String
  stype : String
  influence : ℤ
  interest : ℤ
  engagement_strategy : String
  deriving DecidableEq

/-- Core stakeholder: Plan- og bygningsetaten. -/
def pbe : Stakeholder :=
  { name := "Plan- og bygningsetaten (PBE)"
    stype := "Regulatory Authority"
    influence := 5
    interest := 5
    engagement_strategy := "Formal application process and regular consultations" }

/-- Core stakeholder: Bymiljøetaten. -/
def bym : Stakeholder :=
  { name := "Bymiljøetaten (BYM)"
    stype := "Municipal Department"
    influence := 4
    interest := 4
    engagement_strategy := "Early consultation on environmental impacts" }

/-- Conditional stakeholder added for `environmental_impact`. -/
def miljodirektoratet : Stakeholder :=
  { name := "Miljødirektoratet"
    stype := "National Authority"
    influence := 4
    interest := 5
    engagement_strategy := "Formal environmental impact assessment submission" }

/-- Conditional stakeholder added for `heritage_area`. -/
def riksantikvaren : Stakeholder :=
  { name := "Riksantikvaren"
    stype := "Cultural Heritage Authority"
    influence := 5
    interest := 4
    engagement_strategy := "Cultural heritage impact assessment and consultation" }

/-- First community stakeholder added for `residential_units > 50`. -/
def naboer_og_lokalmiljo : Stakeholder :=
  { name := "Naboer og lokalmiljø"
    stype := "Local Community"
    influence := 3
    interest := 5
    engagement_strategy := "Public meetings and information campaigns" }

/-- Second community stakeholder added for `residential_units > 50`. -/
def bydelsutvalget : Stakeholder :=
  { name := "Bydelsutvalget"
    stype := "District Committee"
    influence := 3
    interest := 4
    engagement_strategy := "Presentation to district committee" }

/-- Embedding of `identify_stakeholders`: the core pair, then the conditional appends in
source order. -/
def identify_stakeholders (pd : ProjectData) : List Stakeholder :=
  [pbe, bym] ++
  (if pd.environmental_impact then [miljodirektoratet] else []) ++
  (if pd.heritage_area then [riksantikvaren] else []) ++
  (if pd.residential_units > 50 then [naboer_og_lokalmiljo, bydelsutvalget] else [])

/-- One entry of the `base_phases` list of `generate_timeline`. -/
structure BasePhase where
  name : String
  duration : ℕ
  dependencies : List String
  deriving DecidableEq

/-- The fixed 7-phase template `base_phases`. -/
def base_phases : List BasePhase :=
  [{ name := "Forstudie og konseptutvikling", duration := 4, dependencies := [] },
   { name := "Reguleringsplan utarbeidelse", duration := 8,
     dependencies := ["Forstudie og konseptutvikling"] },
   { name := "Offentlig høring", duration := 6,
     dependencies := ["Reguleringsplan utarbeidelse"] },
   { name := "Politisk behandling", duration := 4, dependencies := ["Offentlig høring"] },
   { name := "Byggesøknad", duration := 6, dependencies := ["Politisk behandling"] },
   { name := "Detaljprosjektering", duration := 8, dependencies := ["Byggesøknad"] },
   { name := "Byggestart", duration := 1, dependencies := ["Detaljprosjektering"] }]

/-- Embedding of `_get_phase_risks`: the fixed phase-to-risk-category lookup. -/
def _get_phase_risks (phase_name : String) : List String :=
  if phase_name = "Forstudie og konseptutvikling" then ["technical_risk"]
  else if phase_name = "Reguleringsplan utarbeidelse" then ["regulatory_risk", "environmental_risk"]
  else if phase_name = "Offentlig høring" then ["neighbor_risk"]
  else if phase_name = "Politisk behandling" then ["neighbor_risk", "environmental_risk"]
  else if phase_name = "Byggesøknad" then ["regulatory_risk", "technical_risk"]
  else if phase_name = "Detaljprosjektering" then ["technical_risk"]
  else if phase_name = "Byggestart" then ["neighbor_risk"]
  else []

/-- One entry of the list returned by `generate_timeline`. -/
structure TimelinePhase where
  name : String
  duration_weeks : ℤ
  dependencies : List String
  risk_factors : List String
  deriving DecidableEq

/-- The loop body of `generate_timeline` for one phase. -/
def adjust_phase (pd : ProjectData) (ra : RiskAnalysis) (ph : BasePhase) : TimelinePhase :=
  let risk_multiplier : ℚ := 1 + ra.total_risk_score * 0.5
  let adjusted_duration := pyInt ((ph.duration : ℚ) * risk_multiplier)
  let adjusted_duration :=
    if ph.name = "Reguleringsplan utarbeidelse" ∧ pd.requires_zoning_change then
      adjusted_duration + 4
    else adjusted_duration
  let adjusted_duration :=
    if ph.name = "Offentlig høring" ∧ ra.neighbor_risk > 0.6 then
      adjusted_duration + 3
    else adjusted_duration
  { name := ph.name
    duration_weeks := adjusted_duration
    dependencies := ph.dependencies
    risk_factors := _get_phase_risks ph.name }

/-- Embedding of `generate_timeline`. -/
def generate_timeline (pd : ProjectData) (ra : RiskAnalysis) : List TimelinePhase :=
  base_phases.map (adjust_phase pd ra)

/-- One row of the `regulatory_compliance` table. -/
structure RegulationRecord where
  regulation_name : String
  regulation_type : String
  description : String
  compliance_status : String
  required_documents : String
  deadline_days : ℤ
  priority_level : ℤ
  deriving DecidableEq

/-- Catalog row: Plan- og bygningsloven (mandatory). -/
def reg_pbl : RegulationRecord :=
  { regulation_name := "Plan- og bygningsloven (PBL)"
    regulation_type := "Lov"
    description := "Hovedloven for arealplanlegging og byggesaksbehandling"
    compliance_status := "mandatory"
    required_documents := "Planbeskrivelse, reguleringsbestemmelser, konsekvensutredning"
    deadline_days := 180
    priority_level := 1 }

/-- Catalog row: Naturmangfoldloven (conditional). -/
def reg_naturmangfold : RegulationRecord :=
  { regulation_name := "Naturmangfoldloven"
    regulation_type := "Lov"
    description := "Beskyttelse av naturens mangfold"
    compliance_status := "conditional"
    required_documents := "Naturmangfoldutredning, kartlegging av arter"
    deadline_days := 120
    priority_level := 2 }

/-- Catalog row: Forurensningsloven (conditional). -/
def reg_forurensning : RegulationRecord :=
  { regulation_name := "Forurensningsloven"
    regulation_type := "Lov"
    description := "Regulering av forurensning til luft, vann og grunn"
    compliance_status := "conditional"
    required_documents := "Forurensningsutredning, støyanalyse"
    deadline_days := 90
    priority_level := 2 }

/-- Catalog row: TEK17 (mandatory). -/
def reg_tek17 : RegulationRecord :=
  { regulation_name := "TEK17 - Teknisk forskrift"
    regulation_type := "Forskrift"
    description := "Tekniske krav til bygninger"
    compliance_status := "mandatory"
    required_documents := "Teknisk dokumentasjon, energiberegninger"
    deadline_days := 60
    priority_level := 1 }

/-- Catalog row: Kommuneplanens arealdel (mandatory). -/
def reg_kommuneplan : RegulationRecord :=
  { regulation_name := "Kommuneplanens arealdel"
    regulation_type := "Lokal forskrift"
    description := "Oslos overordnede arealplan"
    compliance_status := "mandatory"
    required_documents := "Konformitetsanalyse"
    deadline_days := 30
    priority_level := 1 }

/-- The regulation catalog as `populate_regulatory_data` seeds it on a fresh
database, in insertion (rowid) order — the order `SELECT *` returns. -/
def regulations : List RegulationRecord :=
  [reg_pbl, reg_naturmangfold, reg_forurensning, reg_tek17, reg_kommuneplan]

/-- The per-row conditional logic of `get_regulatory_requirements`:
the value of `is_applicable` after the conditional block. -/
def is_applicable (pd : ProjectData) (req : RegulationRecord) : Bool :=
  if req.compliance_status = "conditional" then
    if req.regulation_name = "Naturmangfoldloven" ∧ ¬ pd.environmental_impact then
      false
    else if req.regulation_name = "Forurensningsloven" ∧ pd.project_type = "residential" then
      pd.residential_units > 100
    else true
  else true

/-- Embedding of `get_regulatory_requirements`: keep the catalog rows whose conditional
logic leaves `is_applicable` true. -/
def get_regulatory_requirements (pd : ProjectData) : List RegulationRecord :=
  regulations.filter (fun req => is_applicable pd req)

/-! ## Bounds of the sub-scores and of the weighted total -/

lemma env_bounds (pd : ProjectData) :
    (0.3:ℚ) ≤ _calculate_environmental_risk pd ∧ _calculate_environmental_risk pd ≤ 1 := by
  simp only [_calculate_environmental_risk]
  refine ⟨le_min ?_ (by norm_num), le_trans (min_le_right _ _) (by norm_num)⟩
  split_ifs <;> norm_num

lemma traffic_bounds (pd : ProjectData) :
    (0.2:ℚ) ≤ _calculate_traffic_risk pd ∧ _calculate_traffic_risk pd ≤ 1 := by
  simp only [_calculate_traffic_risk]
  refine ⟨le_min ?_ (by norm_num), le_trans (min_le_right _ _) (by norm_num)⟩
  split_ifs <;> norm_num

lemma neighbor_bounds (pd : ProjectData) :
    (0.25:ℚ) ≤ _calculate_neighbor_risk pd ∧ _calculate_neighbor_risk pd ≤ 1 := by
  simp only [_calculate_neighbor_risk]
  refine ⟨le_min ?_ (by norm_num), le_trans (min_le_right _ _) (by norm_num)⟩
  split_ifs <;> norm_num

lemma regulatory_bounds (pd : ProjectData) :
    (0.1:ℚ) ≤ _calculate_regulatory_risk pd ∧ _calculate_regulatory_risk pd ≤ 1 := by
  simp only [_calculate_regulatory_risk]
  refine ⟨le_min ?_ (by norm_num), le_trans (min_le_right _ _) (by norm_num)⟩
  split_ifs <;> norm_num

lemma technical_bounds (pd : ProjectData) :
    (0.15:ℚ) ≤ _calculate_technical_risk pd ∧ _calculate_technical_risk pd ≤ 1 := by
  simp only [_calculate_technical_risk]
  refine ⟨le_min ?_ (by norm_num), le_trans (min_le_right _ _) (by norm_num)⟩
  split_ifs <;> norm_num

lemma total_risk_bounds (pd : ProjectData) :
    (0.22:ℚ) ≤ total_risk pd ∧ total_risk pd ≤ 1 := by
  obtain ⟨e₁, e₂⟩ := env_bounds pd
  obtain ⟨t₁, t₂⟩ := traffic_bounds pd
  obtain ⟨n₁, n₂⟩ := neighbor_bounds pd
  obtain ⟨r₁, r₂⟩ := regulatory_bounds pd
  obtain ⟨c₁, c₂⟩ := technical_bounds pd
  unfold total_risk
  constructor <;> linarith

lemma round2_ge_022 {q : ℚ} (h : (0.22:ℚ) ≤ q) : (0.22:ℚ) ≤ round2 q := by
  unfold round2
  have h22 : (22:ℤ) ≤ round (q * 100) := by
    rw [round_eq]
    refine Int.le_floor.mpr ?_
    push_cast
    linarith
  have hc : ((22:ℤ):ℚ) ≤ ((round (q * 100) : ℤ) : ℚ) := Int.cast_le.mpr h22
  push_cast at hc
  linarith

lemma round2_nonneg {q : ℚ} (h : 0 ≤ q) : 0 ≤ round2 q := by
  unfold round2
  have h0 : (0:ℤ) ≤ round (q * 100) := by
    rw [round_eq]
    refine Int.le_floor.mpr ?_
    push_cast
    linarith
  have hc : ((0:ℤ):ℚ) ≤ ((round (q * 100) : ℤ) : ℚ) := Int.cast_le.mpr h0
  push_cast at hc
  linarith

/-! ## Characterisation of `_get_risk_level` -/

lemma grl_low_iff (t : ℚ) : _get_risk_level t = "Low" ↔ t < 0.3 := by
  unfold _get_risk_level
  split_ifs with h1 h2 h3
  · exact iff_of_true rfl h1
  · exact iff_of_false (by decide) h1
  · exact iff_of_false (by decide) h1
  · exact iff_of_false (by decide) h1

lemma grl_medium_iff (t : ℚ) : _get_risk_level t = "Medium" ↔ (0.3:ℚ) ≤ t ∧ t < 0.6 := by
  unfold _get_risk_level
  split_ifs with h1 h2 h3
  · exact iff_of_false (by decide) (fun h => absurd h1 (not_lt.mpr h.1))
  · exact iff_of_true rfl ⟨not_lt.mp h1, h2⟩
  · exact iff_of_false (by decide) (fun h => h2 h.2)
  · exact iff_of_false (by decide) (fun h => h2 h.2)

lemma grl_high_iff (t : ℚ) : _get_risk_level t = "High" ↔ (0.6:ℚ) ≤ t ∧ t < 0.8 := by
  unfold _get_risk_level
  split_ifs with h1 h2 h3
  · exact iff_of_false (by decide) (fun h => absurd h1 (not_lt.mpr (by linarith [h.1])))
  · exact iff_of_false (by decide) (fun h => absurd h2 (not_lt.mpr h.1))
  · exact iff_of_true rfl ⟨not_lt.mp h2, h3⟩
  · exact iff_of_false (by decide) (fun h => h3 h.2)

lemma grl_critical_iff (t : ℚ) : _get_risk_level t = "Critical" ↔ (0.8:ℚ) ≤ t := by
  unfold _get_risk_level
  split_ifs with h1 h2 h3
  · exact iff_of_false (by decide) (not_le.mpr (by linarith))
  · exact iff_of_false (by decide) (not_le.mpr (by linarith))
  · exact iff_of_false (by decide) (not_le.mpr (by linarith))
  · exact iff_of_true rfl (not_lt.mp h3)

/-! ## Claim theorems -/

/-- Claim C1: for every project input, the total risk score equals the linear
combination of the five sub-scores with the fixed weights 0.30, 0.25, 0.20,
0.15, 0.10 (summing to 1), and the returned `total_risk_score` is that sum
rounded to 2 decimal places. -/
theorem claim1_total_score_is_weighted_sum (pd : ProjectData) :
    (analyze_project_risk pd).total_risk_score =
      round2 ((0.30:ℚ) * _calculate_environmental_risk pd
        + 0.25 * _calculate_traffic_risk pd
        + 0.20 * _calculate_neighbor_risk pd
        + 0.15 * _calculate_regulatory_risk pd
        + 0.10 * _calculate_technical_risk pd) ∧
    (0.30:ℚ) + 0.25 + 0.20 + 0.15 + 0.10 = 1 := by
  refine ⟨?_, by norm_num⟩
  show round2 (total_risk pd) = _
  unfold total_risk
  congr 1
  ring

/-- Claim C2: the returned `risk_level` is a pure function of the unrounded
weighted total, with the four half-open buckets and the exact boundary
behaviour stated by the spec. -/
theorem claim2_risk_level_buckets (pd : ProjectData) (t : ℚ) :
    (analyze_project_risk pd).risk_level = _get_risk_level (total_risk pd) ∧
    _get_risk_level 0.29999 = "Low" ∧
    _get_risk_level 0.3 = "Medium" ∧
    _get_risk_level 0.59999 = "Medium" ∧
    _get_risk_level 0.6 = "High" ∧
    _get_risk_level 0.79999 = "High" ∧
    _get_risk_level 0.8 = "Critical" ∧
    (_get_risk_level t = "Low" ↔ t < 0.3) ∧
    (_get_risk_level t = "Medium" ↔ (0.3:ℚ) ≤ t ∧ t < 0.6) ∧
    (_get_risk_level t = "High" ↔ (0.6:ℚ) ≤ t ∧ t < 0.8) ∧
    (_get_risk_level t = "Critical" ↔ (0.8:ℚ) ≤ t) := by
  refine ⟨rfl, ?_, ?_, ?_, ?_, ?_, ?_,
    grl_low_iff t, grl_medium_iff t, grl_high_iff t, grl_critical_iff t⟩ <;>
    norm_num [_get_risk_level]

/-- Claim C3: every one of the five sub-scores lies in the closed interval
[0, 1] for every project input — clamping saturates at 1. -/
theorem claim3_subscores_unit_interval (pd : ProjectData) :
    (0 ≤ _calculate_environmental_risk pd ∧ _calculate_environmental_risk pd ≤ 1) ∧
    (0 ≤ _calculate_traffic_risk pd ∧ _calculate_traffic_risk pd ≤ 1) ∧
    (0 ≤ _calculate_neighbor_risk pd ∧ _calculate_neighbor_risk pd ≤ 1) ∧
    (0 ≤ _calculate_regulatory_risk pd ∧ _calculate_regulatory_risk pd ≤ 1) ∧
    (0 ≤ _calculate_technical_risk pd ∧ _calculate_technical_risk pd ≤ 1) := by
  refine ⟨⟨?_, (env_bounds pd).2⟩, ⟨?_, (traffic_bounds pd).2⟩,
    ⟨?_, (neighbor_bounds pd).2⟩, ⟨?_, (regulatory_bounds pd).2⟩,
    ⟨?_, (technical_bounds pd).2⟩⟩
  · exact le_trans (by norm_num) (env_bounds pd).1
  · exact le_trans (by norm_num) (traffic_bounds pd).1
  · exact le_trans (by norm_num) (neighbor_bounds pd).1
  · exact le_trans (by norm_num) (regulatory_bounds pd).1
  · exact le_trans (by norm_num) (technical_bounds pd).1

/-- Claim C9: the unrounded weighted total is at least 0.22 (the weighted sum
of the five base values), so the rounded `total_risk_score` is never 0 and
the Low level arises exactly from totals in [0.22, 0.3). -/
theorem claim9_total_risk_floor (pd : ProjectData) :
    (0.30:ℚ) * 0.3 + 0.25 * 0.2 + 0.20 * 0.25 + 0.15 * 0.1 + 0.10 * 0.15 = 0.22 ∧
    (0.22:ℚ) ≤ total_risk pd ∧
    (analyze_project_risk pd).total_risk_score ≠ 0 ∧
    ((analyze_project_risk pd).risk_level = "Low" ↔
      (0.22:ℚ) ≤ total_risk pd ∧ total_risk pd < 0.3) := by
  have hlb := (total_risk_bounds pd).1
  refine ⟨by norm_num, hlb, ?_, ?_⟩
  · have h22 : (0.22:ℚ) ≤ (analyze_project_risk pd).total_risk_score := round2_ge_022 hlb
    have hpos : (0:ℚ) < (analyze_project_risk pd).total_risk_score :=
      lt_of_lt_of_le (by norm_num) h22
    exact ne_of_gt hpos
  · show _get_risk_level (total_risk pd) = "Low" ↔ _
    rw [grl_low_iff]
    exact ⟨fun h => ⟨hlb, h⟩, fun h => h.2⟩

/-! ## Regulatory filter -/

lemma is_applicable_natur (pd : ProjectData) :
    is_applicable pd reg_naturmangfold = pd.environmental_impact := by
  by_cases henv : pd.environmental_impact <;>
    simp [is_applicable, reg_naturmangfold, henv]

lemma is_applicable_forur (pd : ProjectData) (h : pd.project_type = "residential") :
    is_applicable pd reg_forurensning = decide ((100:ℚ) < pd.residential_units) := by
  simp [is_applicable, reg_forurensning, h]

/-- Claim C5: `get_regulatory_requirements` keeps every mandatory catalog
record; among conditionals, Naturmangfoldloven is kept exactly when
`environmental_impact` is set, Forurensningsloven is (for residential
projects) kept exactly when `residential_units > 100`, and a conditional
regulation matched by neither rule is always kept. -/
theorem claim5_regulatory_filter (pd : ProjectData) :
    (∀ r ∈ regulations, r.compliance_status = "mandatory" →
      r ∈ get_regulatory_requirements pd) ∧
    (reg_naturmangfold ∈ get_regulatory_requirements pd ↔ pd.environmental_impact) ∧
    (pd.project_type = "residential" →
      (reg_forurensning ∈ get_regulatory_requirements pd ↔ (100:ℚ) < pd.residential_units)) ∧
    (∀ r : RegulationRecord, r.compliance_status = "conditional" →
      r.regulation_name ≠ "Naturmangfoldloven" → r.regulation_name ≠ "Forurensningsloven" →
      is_applicable pd r = true) := by
  refine ⟨?_, ?_, ?_, ?_⟩
  · intro r hr hm
    refine List.mem_filter.mpr ⟨hr, ?_⟩
    simp [is_applicable, hm]
  · simp only [get_regulatory_requirements, List.mem_filter]
    rw [is_applicable_natur]
    have hmem : reg_naturmangfold ∈ regulations := by simp [regulations]
    simp [hmem]
  · intro h
    simp only [get_regulatory_requirements, List.mem_filter]
    rw [is_applicable_forur pd h]
    have hmem : reg_forurensning ∈ regulations := by simp [regulations]
    simp [hmem]
  · intro r h1 h2 h3
    simp [is_applicable, h1, h2, h3]

/-- Concrete residential project used to witness the hypotheses of
`claim5_regulatory_filter`. -/
def proj_res : ProjectData :=
  { project_type := "residential", residential_units := 150, environmental_impact := true }

theorem claim5_witness :
    reg_pbl.compliance_status = "mandatory" ∧
    proj_res.project_type = "residential" ∧
    reg_pbl ∈ get_regulatory_requirements proj_res ∧
    (reg_forurensning ∈ get_regulatory_requirements proj_res ↔
      (100:ℚ) < proj_res.residential_units) := by
  refine ⟨rfl, rfl, ?_, ?_⟩
  · exact (claim5_regulatory_filter proj_res).1 reg_pbl (by simp [regulations]) rfl
  · exact (claim5_regulatory_filter proj_res).2.2.1 rfl

/-! ## Stakeholders -/

/-- Project at the community-stakeholder boundary: 51 units. -/
def proj_units_51 : ProjectData := { residential_units := 51 }

/-- Project at the community-stakeholder boundary: 50 units. -/
def proj_units_50 : ProjectData := { residential_units := 50 }

/-- Claim C6: the stakeholder list always begins with the two fixed core
stakeholders (length ≥ 2, never empty); `environmental_impact` contributes
exactly one national-authority entry, `heritage_area` exactly one heritage
entry, and `residential_units > 50` (51 yes, 50 no) exactly the two
community entries. -/
theorem claim6_stakeholders (pd : ProjectData) :
    (identify_stakeholders pd).take 2 = [pbe, bym] ∧
    2 ≤ (identify_stakeholders pd).length ∧
    identify_stakeholders pd ≠ [] ∧
    (identify_stakeholders pd).count miljodirektoratet =
      (if pd.environmental_impact then 1 else 0) ∧
    (identify_stakeholders pd).count riksantikvaren =
      (if pd.heritage_area then 1 else 0) ∧
    (identify_stakeholders pd).count naboer_og_lokalmiljo =
      (if (50:ℚ) < pd.residential_units then 1 else 0) ∧
    (identify_stakeholders pd).count bydelsutvalget =
      (if (50:ℚ) < pd.residential_units then 1 else 0) ∧
    (identify_stakeholders pd).length =
      2 + (if pd.environmental_impact then 1 else 0)
        + (if pd.heritage_area then 1 else 0)
        + (if (50:ℚ) < pd.residential_units then 2 else 0) ∧
    naboer_og_lokalmiljo ∈ identify_stakeholders proj_units_51 ∧
    naboer_og_lokalmiljo ∉ identify_stakeholders proj_units_50 := by
  have h51 : (50:ℚ) < (51:ℚ) := by norm_num
  have h50 : ¬ ((50:ℚ) < (50:ℚ)) := by norm_num
  by_cases h1 : pd.environmental_impact <;> by_cases h2 : pd.heritage_area <;>
    by_cases h3 : (50:ℚ) < pd.residential_units <;>
    simp +decide [identify_stakeholders, h1, h2, h3, proj_units_51, proj_units_50,
      h51, h50, List.count_cons]

/-! ## Timeline -/

lemma pyInt_of_nonneg {q : ℚ} (h : 0 ≤ q) : pyInt q = ⌊q⌋ := by
  unfold pyInt
  rw [if_neg (not_lt.mpr h)]

/-- Spec-side description of one adjusted phase: duration
`floor(base_duration × (1 + 0.5 × total_risk_score))`, then +4 weeks on the
zoning-plan-drafting phase when `requires_zoning_change` and +3 weeks on the
public-hearing phase when the neighbor sub-score exceeds 0.6. -/
def spec_phase (pd : ProjectData) (ra : RiskAnalysis) (ph : BasePhase) : TimelinePhase :=
  { name := ph.name
    duration_weeks :=
      ⌊(ph.duration : ℚ) * (1 + 0.5 * ra.total_risk_score)⌋
        + (if ph.name = "Reguleringsplan utarbeidelse" ∧ pd.requires_zoning_change then 4 else 0)
        + (if ph.name = "Offentlig høring" ∧ ra.neighbor_risk > 0.6 then 3 else 0)
    dependencies := ph.dependencies
    risk_factors := _get_phase_risks ph.name }

lemma adjust_phase_eq_spec (pd : ProjectData) (ra : RiskAnalysis)
    (h : 0 ≤ ra.total_risk_score) (ph : BasePhase) :
    adjust_phase pd ra ph = spec_phase pd ra ph := by
  have h0 : (0:ℚ) ≤ (ph.duration : ℚ) * (1 + ra.total_risk_score * 0.5) :=
    mul_nonneg (by positivity) (by linarith)
  have harg : (ph.duration : ℚ) * (1 + ra.total_risk_score * 0.5)
      = (ph.duration : ℚ) * (1 + 0.5 * ra.total_risk_score) := by ring
  have h0' : (0:ℚ) ≤ (ph.duration : ℚ) * (1 + 0.5 * ra.total_risk_score) := by
    rw [← harg]; exact h0
  simp only [adjust_phase, spec_phase, harg, pyInt_of_nonneg h0']
  by_cases hA : ph.name = "Reguleringsplan utarbeidelse" ∧ pd.requires_zoning_change <;>
    by_cases hB : ph.name = "Offentlig høring" ∧ ra.neighbor_risk > 0.6 <;>
    simp [hA, hB]

/-- Claim C4: for any project and any risk assessment with a nonnegative
total score, `generate_timeline` is the fixed 7-phase template in order, each
phase carrying the floored risk-adjusted duration plus the zoning and hearing
additions exactly as the spec states. -/
theorem claim4_timeline_refines_spec (pd : ProjectData) (ra : RiskAnalysis)
    (h : 0 ≤ ra.total_risk_score) :
    generate_timeline pd ra = base_phases.map (spec_phase pd ra) ∧
    (generate_timeline pd ra).map TimelinePhase.name =
      ["Forstudie og konseptutvikling", "Reguleringsplan utarbeidelse", "Offentlig høring",
       "Politisk behandling", "Byggesøknad", "Detaljprosjektering", "Byggestart"] := by
  constructor
  · unfold generate_timeline
    exact List.map_congr_left (fun ph _ => adjust_phase_eq_spec pd ra h ph)
  · rfl

/-- Risk assessment used to witness the hypothesis of
`claim4_timeline_refines_spec`. -/
def ra_base : RiskAnalysis :=
  { total_risk_score := 0.22
    environmental_risk := 0.3
    traffic_risk := 0.2
    neighbor_risk := 0.25
    regulatory_risk := 0.1
    technical_risk := 0.15
    risk_level := "Low"
    recommendations := recs_low }

/-- The zero-risk project: every field at its default. -/
def zero_project : ProjectData := {}

theorem claim4_witness :
    (0:ℚ) ≤ ra_base.total_risk_score ∧
    generate_timeline zero_project ra_base = base_phases.map (spec_phase zero_project ra_base) :=
  ⟨by norm_num [ra_base],
   (claim4_timeline_refines_spec zero_project ra_base (by norm_num [ra_base])).1⟩

lemma adjust_duration_ge (pd : ProjectData) (ra : RiskAnalysis)
    (h : 0 ≤ ra.total_risk_score) (ph : BasePhase) :
    (ph.duration : ℤ) ≤ (adjust_phase pd ra ph).duration_weeks := by
  have h0 : (0:ℚ) ≤ (ph.duration : ℚ) * (1 + ra.total_risk_score * 0.5) :=
    mul_nonneg (by positivity) (by linarith)
  have hfl : (ph.duration : ℤ) ≤ pyInt ((ph.duration : ℚ) * (1 + ra.total_risk_score * 0.5)) := by
    rw [pyInt_of_nonneg h0]
    refine Int.le_floor.mpr ?_
    push_cast
    nlinarith [Nat.cast_nonneg (α := ℚ) ph.duration]
  simp only [adjust_phase]
  split_ifs <;> omega

/-- Claim C10: every adjusted phase duration dominates its base duration, so
every `duration_weeks` is at least 1 and the total timeline is at least 37
weeks, for any project inputs. -/
theorem claim10_durations_dominate_base (pd pd' : ProjectData) :
    List.Forall₂ (fun (b : BasePhase) (p : TimelinePhase) =>
        (b.duration : ℤ) ≤ p.duration_weeks ∧ 1 ≤ p.duration_weeks)
      base_phases (generate_timeline pd' (analyze_project_risk pd)) ∧
    37 ≤ ((generate_timeline pd' (analyze_project_risk pd)).map
      TimelinePhase.duration_weeks).sum := by
  have ht : 0 ≤ (analyze_project_risk pd).total_risk_score :=
    round2_nonneg (le_trans (by norm_num) (total_risk_bounds pd).1)
  constructor
  · unfold generate_timeline
    rw [List.forall₂_map_right_iff, List.forall₂_same]
    intro ph hph
    have hd : 1 ≤ ph.duration := by fin_cases hph <;> decide
    refine ⟨adjust_duration_ge pd' _ ht ph, ?_⟩
    calc (1:ℤ) ≤ (ph.duration : ℤ) := by exact_mod_cast hd
      _ ≤ _ := adjust_duration_ge pd' _ ht ph
  · unfold generate_timeline
    rw [List.map_map]
    calc (37:ℤ) = (base_phases.map fun ph => (ph.duration : ℤ)).sum := by decide
      _ ≤ _ := List.sum_le_sum (fun ph _ => adjust_duration_ge pd' _ ht ph)

/-! ## Concrete evaluations -/

lemma analyze_zero : analyze_project_risk zero_project = ra_base := by
  have s1 : strIn "naturområde" "" = false := by decide
  have s2 : strIn "vannområde" "" = false := by decide
  have s3 : strIn "hovedvei" "" = false := by decide
  have s4 : strIn "boligområde" "" = false := by decide
  have htot : total_risk zero_project = 0.22 := by
    norm_num [total_risk, _calculate_environmental_risk, _calculate_traffic_risk,
      _calculate_neighbor_risk, _calculate_regulatory_risk, _calculate_technical_risk,
      zero_project, s1, s2, s3, s4, min_def]
  simp only [analyze_project_risk, ra_base, htot]
  norm_num [_calculate_environmental_risk, _calculate_traffic_risk,
    _calculate_neighbor_risk, _calculate_regulatory_risk, _calculate_technical_risk,
    zero_project, s1, s2, s3, s4, min_def, round2, round_eq,
    _get_risk_level, _generate_risk_recommendations]

/-- Claim C7: for the zero-risk project the timeline total equals the sum of
the seven base durations, 4+8+6+4+6+8+1 = 37 weeks. -/
theorem claim7_zero_risk_total_duration :
    ((generate_timeline zero_project (analyze_project_risk zero_project)).map
      TimelinePhase.duration_weeks).sum = 37 ∧
    (base_phases.map fun ph => (ph.duration : ℤ)).sum = 37 ∧
    (4 + 8 + 6 + 4 + 6 + 8 + 1 : ℤ) = 37 := by
  refine ⟨?_, by decide, by decide⟩
  rw [analyze_zero]
  norm_num [generate_timeline, base_phases, adjust_phase, zero_project, ra_base, pyInt,
    _get_phase_risks]

/-- The project input exhibiting the gap between the returned recommendation
list and the tier table applied to the rounded `total_risk_score`: its
unrounded weighted total is 0.7025, which rounds to 0.70. -/
def projA : ProjectData :=
  { location := "naturområde"
    nearby_features := "vannområde"
    nearby_roads := "hovedvei"
    zone_type := "boligområde"
    building_height := 7
    residential_units := 150
    parking_spaces := 0
    tight_site := true }

lemma total_projA : total_risk projA = 0.7025 := by
  have s1 : strIn "naturområde" "naturområde" = true := by decide
  have s2 : strIn "vannområde" "vannområde" = true := by decide
  have s3 : strIn "hovedvei" "hovedvei" = true := by decide
  have s4 : strIn "boligområde" "boligområde" = true := by decide
  norm_num [total_risk, _calculate_environmental_risk, _calculate_traffic_risk,
    _calculate_neighbor_risk, _calculate_regulatory_risk, _calculate_technical_risk,
    projA, s1, s2, s3, s4, min_def]

/-- Claim C8 counterexample: on `projA` the returned recommendation list is
the high tier (unrounded total 0.7025 > 0.7) while the tier table applied to
the returned `total_risk_score` 0.70 yields the medium tier. -/
theorem claim8_counterexample :
    (analyze_project_risk projA).recommendations ≠
      _generate_risk_recommendations ((analyze_project_risk projA).total_risk_score) := by
  have hrec : (analyze_project_risk projA).recommendations = recs_high := by
    show _generate_risk_recommendations (total_risk projA) = recs_high
    rw [total_projA]
    norm_num [_generate_risk_recommendations]
  have hscore : (analyze_project_risk projA).total_risk_score = 0.7 := by
    show round2 (total_risk projA) = 0.7
    rw [total_projA]
    norm_num [round2, round_eq]
  have htier : _generate_risk_recommendations ((analyze_project_risk projA).total_risk_score)
      = recs_medium := by
    rw [hscore]
    norm_num [_generate_risk_recommendations]
  rw [hrec, htier]
  decide

/-- Claim C8 as amended: the recommendation list is determined by the
*unrounded* weighted total through the three fixed tiers (> 0.7 high,
> 0.5 medium, otherwise low), the three tier lists being pairwise distinct;
it is not a function of the rounded `total_risk_score` field. -/
theorem claim8_amended_recommendation_tiers (pd : ProjectData) :
    (analyze_project_risk pd).recommendations =
      (if total_risk pd > 0.7 then recs_high
       else if total_risk pd > 0.5 then recs_medium
       else recs_low) ∧
    recs_high ≠ recs_medium ∧ recs_high ≠ recs_low ∧ recs_medium ≠ recs_low :=
  ⟨rfl, by decide, by decide, by decide⟩

end OsloPlanning
